import Mathlib

/-!
Verification of the stonks repository (React frontend + mock data layer).

The definitions below are a shallow embedding of the JavaScript source:
  - src/src/api/mockData.js       (embedded demo dataset MOCK_DATA)
  - src/src/api/stockApi.js       (fetch wrappers)
  - src/src/components/TopPerformers.jsx
  - src/src/components/Recommendations.jsx
  - src/src/components/StockScreener.jsx
  - src/src/components/DataTable.jsx
  - src/unnamed/part_006          (StockChart, RSI sub-chart)
Numeric values are modelled as rationals; JS optional fields become Option.
-/

namespace Stonks

/-! ## Data model of MOCK_DATA records (mockData.js) -/

/-- The dcf object attached to a stock record.  In MOCK_DATA only
margin_of_safety is ever present; backend records may also carry
intrinsic_value, so it is optional. -/
structure DCF where
  intrinsic_value : Option ℚ := none
  margin_of_safety : ℚ
deriving DecidableEq, Repr, Inhabited

/-- The scores object attached to a stock record (only composite is used by
the frontend and present in MOCK_DATA). -/
structure Scores where
  composite : ℚ
deriving DecidableEq, Repr, Inhabited

/-- The recommendation object of a stock record. -/
structure Recommendation where
  action : String
  upside : ℚ
  confidence : Option ℚ := none
deriving DecidableEq, Repr, Inhabited

/-- A stock record as it appears in MOCK_DATA.  Fields that some records
lack (rank, scores, rsi, macd_signal, dcf) are Option. -/
structure Stock where
  rank : Option ℕ := none
  symbol : String
  name : String
  price : ℚ
  change_percent : ℚ
  sector : String
  scores : Option Scores := none
  rsi : Option ℚ := none
  macd_signal : Option String := none
  recommendation : Recommendation
  dcf : Option DCF := none
deriving DecidableEq, Repr, Inhabited

/-- MOCK_DATA.topPerformers.top (mockData.js lines 17-28). -/
def topPerformersTop : List Stock := [
  { rank := some 1, symbol := "TATAELXSI", name := "Tata Elxsi", price := mkRat 785050 100, change_percent := mkRat 425 100, sector := "IT", scores := some ⟨78⟩, rsi := some 62, macd_signal := some "Bullish", recommendation := { action := "STRONG BUY", upside := mkRat 1850 100 }, dcf := some { margin_of_safety := mkRat 1250 100 } },
  { rank := some 2, symbol := "ADANIPORTS", name := "Adani Ports", price := mkRat 142530 100, change_percent := mkRat 385 100, sector := "Infrastructure", scores := some ⟨74⟩, rsi := some 58, macd_signal := some "Bullish", recommendation := { action := "BUY", upside := mkRat 1520 100 }, dcf := some { margin_of_safety := mkRat 830 100 } },
  { rank := some 3, symbol := "BAJFINANCE", name := "Bajaj Finance", price := mkRat 712580 100, change_percent := mkRat 342 100, sector := "Financial", scores := some ⟨72⟩, rsi := some 55, macd_signal := some "Bullish", recommendation := { action := "BUY", upside := mkRat 1280 100 }, dcf := some { margin_of_safety := mkRat 520 100 } },
  { rank := some 4, symbol := "INFY", name := "Infosys", price := mkRat 187545 100, change_percent := mkRat 295 100, sector := "IT", scores := some ⟨70⟩, rsi := some 52, macd_signal := some "Neutral", recommendation := { action := "HOLD", upside := mkRat 850 100 }, dcf := some { margin_of_safety := mkRat 310 100 } },
  { rank := some 5, symbol := "RELIANCE", name := "Reliance Industries", price := mkRat 295060 100, change_percent := mkRat 278 100, sector := "Energy", scores := some ⟨68⟩, rsi := some 48, macd_signal := some "Bullish", recommendation := { action := "BUY", upside := mkRat 1420 100 }, dcf := some { margin_of_safety := mkRat 680 100 } },
  { rank := some 6, symbol := "TCS", name := "TCS", price := mkRat 412530 100, change_percent := mkRat 255 100, sector := "IT", scores := some ⟨67⟩, rsi := some 51, macd_signal := some "Neutral", recommendation := { action := "HOLD", upside := mkRat 750 100 }, dcf := some { margin_of_safety := mkRat 250 100 } },
  { rank := some 7, symbol := "HDFCBANK", name := "HDFC Bank", price := mkRat 172580 100, change_percent := mkRat 235 100, sector := "Banking", scores := some ⟨65⟩, rsi := some 49, macd_signal := some "Bullish", recommendation := { action := "BUY", upside := mkRat 1120 100 }, dcf := some { margin_of_safety := mkRat 480 100 } },
  { rank := some 8, symbol := "ICICIBANK", name := "ICICI Bank", price := mkRat 128545 100, change_percent := mkRat 212 100, sector := "Banking", scores := some ⟨64⟩, rsi := some 47, macd_signal := some "Neutral", recommendation := { action := "HOLD", upside := mkRat 950 100 }, dcf := some { margin_of_safety := mkRat 320 100 } },
  { rank := some 9, symbol := "WIPRO", name := "Wipro", price := mkRat 48560 100, change_percent := mkRat 195 100, sector := "IT", scores := some ⟨62⟩, rsi := some 45, macd_signal := some "Neutral", recommendation := { action := "HOLD", upside := mkRat 680 100 }, dcf := some { margin_of_safety := mkRat 150 100 } },
  { rank := some 10, symbol := "LT", name := "Larsen & Toubro", price := mkRat 365025 100, change_percent := mkRat 178 100, sector := "Infrastructure", scores := some ⟨61⟩, rsi := some 44, macd_signal := some "Bullish", recommendation := { action := "BUY", upside := mkRat 1050 100 }, dcf := some { margin_of_safety := mkRat 550 100 } }
]

/-- MOCK_DATA.topPerformers.bottom (mockData.js lines 29-40). -/
def topPerformersBottom : List Stock := [
  { rank := some 1, symbol := "TATASTEEL", name := "Tata Steel", price := mkRat 14250 100, change_percent := mkRat (-385) 100, sector := "Metals", scores := some ⟨32⟩, rsi := some 28, macd_signal := some "Bearish", recommendation := { action := "SELL", upside := mkRat (-850) 100 }, dcf := some { margin_of_safety := mkRat (-1520) 100 } },
  { rank := some 2, symbol := "HINDALCO", name := "Hindalco", price := mkRat 62530 100, change_percent := mkRat (-325) 100, sector := "Metals", scores := some ⟨35⟩, rsi := some 32, macd_signal := some "Bearish", recommendation := { action := "SELL", upside := mkRat (-620) 100 }, dcf := some { margin_of_safety := mkRat (-1250) 100 } },
  { rank := some 3, symbol := "JSWSTEEL", name := "JSW Steel", price := mkRat 87545 100, change_percent := mkRat (-295) 100, sector := "Metals", scores := some ⟨38⟩, rsi := some 35, macd_signal := some "Bearish", recommendation := { action := "SELL", upside := mkRat (-580) 100 }, dcf := some { margin_of_safety := mkRat (-1020) 100 } },
  { rank := some 4, symbol := "COALINDIA", name := "Coal India", price := mkRat 42560 100, change_percent := mkRat (-245) 100, sector := "Mining", scores := some ⟨40⟩, rsi := some 38, macd_signal := some "Bearish", recommendation := { action := "HOLD", upside := mkRat (-250) 100 }, dcf := some { margin_of_safety := mkRat (-580) 100 } },
  { rank := some 5, symbol := "ONGC", name := "ONGC", price := mkRat 26580 100, change_percent := mkRat (-215) 100, sector := "Energy", scores := some ⟨42⟩, rsi := some 40, macd_signal := some "Neutral", recommendation := { action := "HOLD", upside := mkRat (-120) 100 }, dcf := some { margin_of_safety := mkRat (-350) 100 } },
  { rank := some 6, symbol := "BPCL", name := "BPCL", price := mkRat 31525 100, change_percent := mkRat (-195) 100, sector := "Energy", scores := some ⟨43⟩, rsi := some 41, macd_signal := some "Neutral", recommendation := { action := "HOLD", upside := mkRat 150 100 }, dcf := some { margin_of_safety := mkRat (-280) 100 } },
  { rank := some 7, symbol := "IOC", name := "Indian Oil", price := mkRat 14560 100, change_percent := mkRat (-175) 100, sector := "Energy", scores := some ⟨44⟩, rsi := some 42, macd_signal := some "Neutral", recommendation := { action := "HOLD", upside := mkRat 280 100 }, dcf := some { margin_of_safety := mkRat (-150) 100 } },
  { rank := some 8, symbol := "NTPC", name := "NTPC", price := mkRat 38530 100, change_percent := mkRat (-155) 100, sector := "Power", scores := some ⟨45⟩, rsi := some 43, macd_signal := some "Neutral", recommendation := { action := "HOLD", upside := mkRat 350 100 }, dcf := some { margin_of_safety := mkRat 50 100 } },
  { rank := some 9, symbol := "POWERGRID", name := "Power Grid", price := mkRat 28545 100, change_percent := mkRat (-135) 100, sector := "Power", scores := some ⟨46⟩, rsi := some 44, macd_signal := some "Neutral", recommendation := { action := "HOLD", upside := mkRat 420 100 }, dcf := some { margin_of_safety := mkRat 120 100 } },
  { rank := some 10, symbol := "GAIL", name := "GAIL", price := mkRat 19580 100, change_percent := mkRat (-115) 100, sector := "Energy", scores := some ⟨47⟩, rsi := some 45, macd_signal := some "Neutral", recommendation := { action := "HOLD", upside := mkRat 500 100 }, dcf := some { margin_of_safety := mkRat 200 100 } }
]

/-- MOCK_DATA.recommendations.top_picks (mockData.js lines 64-70). -/
def recTopPicks : List Stock := [
  { symbol := "TATAELXSI", name := "Tata Elxsi", price := mkRat 785050 100, change_percent := mkRat 425 100, sector := "IT", recommendation := { action := "STRONG BUY", upside := mkRat 1850 100, confidence := some 82 }, dcf := some { margin_of_safety := mkRat 1250 100 } },
  { symbol := "ADANIPORTS", name := "Adani Ports", price := mkRat 142530 100, change_percent := mkRat 385 100, sector := "Infrastructure", recommendation := { action := "STRONG BUY", upside := mkRat 1520 100, confidence := some 78 }, dcf := some { margin_of_safety := mkRat 830 100 } },
  { symbol := "BAJFINANCE", name := "Bajaj Finance", price := mkRat 712580 100, change_percent := mkRat 342 100, sector := "Financial", recommendation := { action := "BUY", upside := mkRat 1280 100, confidence := some 75 }, dcf := some { margin_of_safety := mkRat 520 100 } },
  { symbol := "RELIANCE", name := "Reliance Industries", price := mkRat 295060 100, change_percent := mkRat 278 100, sector := "Energy", recommendation := { action := "BUY", upside := mkRat 1420 100, confidence := some 72 }, dcf := some { margin_of_safety := mkRat 680 100 } },
  { symbol := "HDFCBANK", name := "HDFC Bank", price := mkRat 172580 100, change_percent := mkRat 235 100, sector := "Banking", recommendation := { action := "BUY", upside := mkRat 1120 100, confidence := some 70 }, dcf := some { margin_of_safety := mkRat 480 100 } }
]

/-- MOCK_DATA.recommendations.avoid_list (mockData.js lines 71-75). -/
def recAvoidList : List Stock := [
  { symbol := "TATASTEEL", name := "Tata Steel", price := mkRat 14250 100, change_percent := mkRat (-385) 100, sector := "Metals", recommendation := { action := "STRONG SELL", upside := mkRat (-850) 100 } },
  { symbol := "HINDALCO", name := "Hindalco", price := mkRat 62530 100, change_percent := mkRat (-325) 100, sector := "Metals", recommendation := { action := "SELL", upside := mkRat (-620) 100 } },
  { symbol := "JSWSTEEL", name := "JSW Steel", price := mkRat 87545 100, change_percent := mkRat (-295) 100, sector := "Metals", recommendation := { action := "SELL", upside := mkRat (-580) 100 } }
]

/-- All four stock lists of MOCK_DATA that the claims quantify over. -/
def mockStocks : List Stock :=
  topPerformersTop ++ topPerformersBottom ++ recTopPicks ++ recAvoidList

example : mockStocks.length = 28 := by decide

/-! ## Recommendation mapping (spec section 4.4) and view helpers -/

/-- Modelled from the spec, section 4.4: the fixed-threshold recommendation
mapping.  "composite >= 70 AND margin >= 0 gives STRONG BUY; otherwise
composite >= 55 gives BUY; otherwise composite in [40,55) gives HOLD;
otherwise composite < 40 with negative margin gives SELL or STRONG SELL".
The predicate holds when the action is one the mapping allows at
(composite, margin); outside the enumerated cases the spec fixes nothing. -/
def specActionAllowed (c m : ℚ) (a : String) : Bool :=
  if 70 ≤ c ∧ 0 ≤ m then a = "STRONG BUY"
  else if 55 ≤ c then a = "BUY"
  else if 40 ≤ c then a = "HOLD"
  else if m < 0 then a = "SELL" ∨ a = "STRONG SELL"
  else true

/-- A MOCK_DATA record agrees with the spec mapping, when it carries both a
composite score and a DCF margin of safety (records lacking either field are
outside the claim). -/
def stockMatchesSpecAction (s : Stock) : Bool :=
  match s.scores, s.dcf with
  | some sc, some d => specActionAllowed sc.composite d.margin_of_safety s.recommendation.action
  | _, _ => true

/-- The bands of the spec mapping that the demo dataset does satisfy:
the HOLD band and the negative-margin SELL band exactly, and for
composite >= 55 an action no worse than HOLD. -/
def stockActionBandsOK (s : Stock) : Bool :=
  match s.scores, s.dcf with
  | some sc, some d =>
      (!(40 ≤ sc.composite ∧ sc.composite < 55) || s.recommendation.action = "HOLD") &&
      (!(sc.composite < 40 ∧ d.margin_of_safety < 0) ||
        (s.recommendation.action = "SELL" ∨ s.recommendation.action = "STRONG SELL")) &&
      (!(55 ≤ sc.composite) ||
        (s.recommendation.action = "STRONG BUY" ∨ s.recommendation.action = "BUY" ∨
          s.recommendation.action = "HOLD"))
  | _, _ => true

/-- The ordering of actions stated by claim C6:
STRONG SELL < SELL < HOLD < BUY < STRONG BUY. -/
def actionRank (a : String) : ℕ :=
  if a = "STRONG SELL" then 0
  else if a = "SELL" then 1
  else if a = "HOLD" then 2
  else if a = "BUY" then 3
  else if a = "STRONG BUY" then 4
  else 0

/-- Monotonicity of the recommendation action in the composite score at fixed
margin of safety, for one ordered pair of records; pairs where either record
lacks a composite score or a dcf margin are outside the claim. -/
def actionMonotonePair (s₁ s₂ : Stock) : Bool :=
  match s₁.scores, s₁.dcf, s₂.scores, s₂.dcf with
  | some a, some x, some b, some y =>
      !(x.margin_of_safety = y.margin_of_safety ∧ b.composite ≤ a.composite) ||
        actionRank s₂.recommendation.action ≤ actionRank s₁.recommendation.action
  | _, _, _, _ => true

/-- The five legal action strings of the Recommendation data model. -/
def validActions : List String :=
  ["STRONG BUY", "BUY", "HOLD", "SELL", "STRONG SELL"]

/-- getActionColor from Recommendations.jsx (lines 134-143). -/
def getActionColor (action : String) : String :=
  if action = "STRONG BUY" then "#10b981"
  else if action = "BUY" then "#34d399"
  else if action = "HOLD" then "#f59e0b"
  else if action = "SELL" then "#f87171"
  else if action = "STRONG SELL" then "#ef4444"
  else "#6b7280"

/-- A record conforms to the Recommendation data model: action among the five
legal strings, confidence (when present) in [0,100]. -/
def recommendationWellFormed (s : Stock) : Bool :=
  (decide (s.recommendation.action ∈ validActions)) &&
  (match s.recommendation.confidence with
   | some c => 0 ≤ c ∧ c ≤ 100
   | none => true)

/-- The fixed y-axis domain of the RSI sub-chart in StockChart
(src/unnamed/part_006, YAxis domain 0..100). -/
def rsiAxisDomain : ℚ × ℚ := (0, 100)

/-- Range checks of claim C5 for one record: rsi (when present) in [0,100]
and within the RSI chart y-axis domain, composite (when present) in [0,100]. -/
def rangesOK (s : Stock) : Bool :=
  (match s.rsi with
   | some r => 0 ≤ r ∧ r ≤ 100 ∧ rsiAxisDomain.1 ≤ r ∧ r ≤ rsiAxisDomain.2
   | none => true) &&
  (match s.scores with
   | some sc => 0 ≤ sc.composite ∧ sc.composite ≤ 100
   | none => true)

/-! ## Theorems for claims C1, C5, C6, C7 -/

/-- C1 counterexample: the demo dataset does not follow the spec's
fixed-threshold mapping.  The record at index 1 of mockStocks is ADANIPORTS
with composite 74, margin 8.3 and action BUY, where the mapping requires
STRONG BUY. -/
theorem C1_counterexample :
    mockStocks[1]?.map (fun s => s.symbol) = some "ADANIPORTS" ∧
    mockStocks[1]?.map stockMatchesSpecAction = some false := by decide

/-- C1 (amended): for every MOCK_DATA record carrying both a composite score
and a DCF margin of safety, the action lies in the spec bands as far as the
data respects them: composite in [40,55) gives HOLD, composite < 40 with
negative margin gives SELL or STRONG SELL, and composite >= 55 gives one of
STRONG BUY, BUY, HOLD; the full mapping (>= 70 with nonnegative margin gives
STRONG BUY, else >= 55 gives BUY) does not hold of the data. -/
theorem C1_amended_theorem :
    ∀ s ∈ mockStocks, stockActionBandsOK s = true := by decide

/-- Witness for C1: the amended theorem applied to the first record. -/
theorem C1_witness : stockActionBandsOK mockStocks.headI = true :=
  C1_amended_theorem mockStocks.headI (by decide)

/-- C5: every MOCK_DATA record has rsi (when present) in [0,100] — hence
inside the RSI chart's fixed y-axis domain, so the chart never clips it —
and composite (when present) in [0,100]. -/
theorem C5_theorem : ∀ s ∈ mockStocks, rangesOK s = true := by decide

/-- Witness for C5: the range check evaluated on the first record. -/
theorem C5_witness : rangesOK mockStocks.headI = true :=
  C5_theorem mockStocks.headI (by decide)

/-- C6: over all ordered pairs of MOCK_DATA records carrying both fields,
equal dcf margin of safety and a composite at least as high never yield a
strictly worse action under STRONG SELL < SELL < HOLD < BUY < STRONG BUY.
(In the demo data all margins of such records are pairwise distinct, so only
reflexive pairs are constrained.) -/
theorem C6_theorem :
    ∀ s₁ ∈ mockStocks, ∀ s₂ ∈ mockStocks, actionMonotonePair s₁ s₂ = true := by
  decide

/-- Witness for C6: the monotonicity check on the pair of first records. -/
theorem C6_witness : actionMonotonePair mockStocks.headI mockStocks.headI = true :=
  C6_theorem mockStocks.headI (by decide) mockStocks.headI (by decide)

/-- C7: every recommendation object in MOCK_DATA has an action among the five
legal strings and a confidence (when present) in [0,100]; getActionColor maps
each legal action to a non-default color and every other string to the
default color. -/
theorem C7_theorem :
    (∀ s ∈ mockStocks, recommendationWellFormed s = true) ∧
    (∀ a ∈ validActions, getActionColor a ≠ "#6b7280") ∧
    (∀ a : String, a ∉ validActions → getActionColor a = "#6b7280") := by
  refine ⟨by decide, by decide, ?_⟩
  intro a ha
  simp only [validActions, List.mem_cons, List.not_mem_nil, or_false] at ha
  push_neg at ha
  obtain ⟨h1, h2, h3, h4, h5⟩ := ha
  simp [getActionColor, h1, h2, h3, h4, h5]

/-- Witness for C7: a string outside the five legal actions gets the default
color. -/
theorem C7_witness : getActionColor "UNKNOWN" = "#6b7280" :=
  C7_theorem.2.2 "UNKNOWN" (by decide)

/-! ## The topPerformers payload and its timestamp (mockData.js / stockApi.js) -/

/-- MOCK_DATA.topPerformers, including its timestamp field. -/
structure TopPerformersPayload where
  top : List Stock
  bottom : List Stock
  total_analyzed : ℕ
  timestamp : String
deriving DecidableEq, Repr

/-- MOCK_DATA.topPerformers as a function of the wall-clock time at module
evaluation: mockData.js line 42 sets timestamp to new Date().toISOString()
when the module is loaded, so the payload is parametrised by that instant. -/
def mkTopPerformers (loadTime : String) : TopPerformersPayload :=
  { top := topPerformersTop
    bottom := topPerformersBottom
    total_analyzed := 135
    timestamp := loadTime }

/-- fetchTopPerformers in demo mode (stockApi.js lines 14-17): it returns the
module-level MOCK_DATA.topPerformers object; the time of the call is never
consulted, only the module-load time that froze the timestamp. -/
def fetchTopPerformersDemo (loadTime : String) (_callTime : String) :
    TopPerformersPayload :=
  mkTopPerformers loadTime

/-! ## Fetch wrappers of stockApi.js over an abstract HTTP response -/

/-- An HTTP response as stockApi.js consumes it: response.ok, then a JSON
body with success, an optional error message, and the data payload. -/
structure ApiResponse (α : Type) where
  ok : Bool
  success : Bool
  error : Option String
  data : α

/-- A value as a fetch wrapper returns it: real data, or one of the two
substituted defaults appearing in stockApi.js (null, empty object). -/
inductive JsValue (α : Type) where
  | data (v : α)
  | nullValue
  | emptyObject
deriving DecidableEq, Repr

/-- fetchTopPerformers outside demo mode (stockApi.js lines 18-22): throws on
a non-ok response and on success = false, otherwise returns data.data. -/
def fetchTopPerformersLive {α : Type} (r : ApiResponse α) :
    Except String (JsValue α) :=
  if !r.ok then .error "Failed to fetch top performers"
  else if !r.success then .error (r.error.getD "API error")
  else .ok (.data r.data)

/-- fetchProgress (stockApi.js lines 25-30): on a non-ok response it returns
null instead of throwing; it never inspects success. -/
def fetchProgressModel {α : Type} (r : ApiResponse α) :
    Except String (JsValue α) :=
  if !r.ok then .ok .nullValue
  else .ok (.data r.data)

/-- fetchCacheStatus (stockApi.js lines 32-37): on a non-ok response it
returns an empty object instead of throwing; it never inspects success. -/
def fetchCacheStatusModel {α : Type} (r : ApiResponse α) :
    Except String (JsValue α) :=
  if !r.ok then .ok .emptyObject
  else .ok (.data r.data)

/-! ## Theorems for claims C2 and C3 -/

/-- C2 counterexample: evaluating the demo data source at two different
wall-clock instants yields unequal objects, because the timestamp field is
taken from the clock at module evaluation. -/
theorem C2_counterexample :
    mkTopPerformers "2025-01-01T09:00:00.000Z" ≠
      mkTopPerformers "2025-01-01T10:00:00.000Z" := by decide

/-- C2 (amended): within one module load the demo-mode fetch is deterministic
— two calls at different times return identical objects — and across module
loads every field except the wall-clock timestamp is identical. -/
theorem C2_amended_theorem :
    (∀ loadTime t₁ t₂ : String,
      fetchTopPerformersDemo loadTime t₁ = fetchTopPerformersDemo loadTime t₂) ∧
    (∀ l₁ l₂ : String,
      (mkTopPerformers l₁).top = (mkTopPerformers l₂).top ∧
      (mkTopPerformers l₁).bottom = (mkTopPerformers l₂).bottom ∧
      (mkTopPerformers l₁).total_analyzed = (mkTopPerformers l₂).total_analyzed) :=
  ⟨fun _ _ _ => rfl, fun _ _ => ⟨rfl, rfl, rfl⟩⟩

/-- C3 counterexample: fetchProgress, on a non-ok response, returns the
substituted default null rather than throwing. -/
theorem C3_counterexample :
    fetchProgressModel (α := Unit)
      { ok := false, success := false, error := none, data := () } =
      Except.ok JsValue.nullValue := by rfl

/-- C3 (amended): fetchTopPerformers (live mode) surfaces every upstream
failure as an error, but fetchProgress and fetchCacheStatus do not: on a
non-ok response they return the defaults null and empty object, and neither
ever throws on a received response. -/
theorem C3_amended_theorem :
    ∀ (α : Type) (r : ApiResponse α),
      ((r.ok = false ∨ r.success = false) →
        (fetchTopPerformersLive r).isOk = false) ∧
      (r.ok = false →
        fetchProgressModel r = Except.ok JsValue.nullValue ∧
        fetchCacheStatusModel r = Except.ok JsValue.emptyObject) ∧
      (fetchProgressModel r).isOk = true ∧
      (fetchCacheStatusModel r).isOk = true := by
  intro α r
  refine ⟨?_, ?_, ?_, ?_⟩
  · intro h
    rcases h with h | h
    · simp [fetchTopPerformersLive, h, Except.isOk, Except.toBool]
    · cases hok : r.ok <;>
        simp [fetchTopPerformersLive, hok, h, Except.isOk, Except.toBool]
  · intro h
    simp [fetchProgressModel, fetchCacheStatusModel, h]
  · cases hok : r.ok <;> simp [fetchProgressModel, hok, Except.isOk, Except.toBool]
  · cases hok : r.ok <;> simp [fetchCacheStatusModel, hok, Except.isOk, Except.toBool]

/-- Witness for C3: the live fetchTopPerformers wrapper errors on a concrete
non-ok response. -/
theorem C3_witness :
    (fetchTopPerformersLive (α := Unit)
      { ok := false, success := true, error := none, data := () }).isOk = false :=
  (C3_amended_theorem Unit
    { ok := false, success := true, error := none, data := () }).1 (Or.inl rfl)

/-! ## The TopPerformers DCF indicator (TopPerformers.jsx lines 119-127) -/

/-- TopPerformers.jsx line 120: the DCF indicator block is rendered exactly
when stock.dcf?.intrinsic_value > 0; with JS optional chaining a missing dcf
or a missing intrinsic_value makes the guard undefined > 0, which is false. -/
def showsDcfIndicator (s : Stock) : Bool :=
  match s.dcf with
  | some d =>
    match d.intrinsic_value with
    | some v => decide (0 < v)
    | none => false
  | none => false

/-- The rendered DCF indicator: when shown it carries the css sign class
(margin_of_safety > 0) and the margin value (lines 121-126); when the guard
fails nothing is rendered. -/
def dcfIndicatorRender (s : Stock) : Option (Bool × ℚ) :=
  match s.dcf with
  | some d =>
    if showsDcfIndicator s then some (decide (0 < d.margin_of_safety), d.margin_of_safety)
    else none
  | none => none

/-- A stock whose dcf is present with intrinsic_value computed as zero. -/
def stockZeroDcf : Stock :=
  { symbol := "ZERO", name := "Zero DCF", price := 100, change_percent := 0,
    sector := "IT", recommendation := { action := "HOLD", upside := 0 },
    dcf := some { intrinsic_value := some 0, margin_of_safety := 5 } }

/-- The same stock with no dcf at all. -/
def stockNoDcf : Stock :=
  { symbol := "ZERO", name := "Zero DCF", price := 100, change_percent := 0,
    sector := "IT", recommendation := { action := "HOLD", upside := 0 },
    dcf := none }

/-- C4 counterexample: a stock whose dcf has intrinsic_value = 0 renders
exactly like a stock with no dcf at all — both omit the DCF indicator — so
the consumer does not distinguish "no DCF" from "DCF computed as zero". -/
theorem C4_counterexample :
    dcfIndicatorRender stockZeroDcf = dcfIndicatorRender stockNoDcf ∧
    dcfIndicatorRender stockZeroDcf = none := by decide

/-- C4 (amended): TopPerformers renders the DCF indicator exactly for stocks
whose dcf is present with positive intrinsic_value; a dcf absent, an
intrinsic_value absent, and an intrinsic_value equal to zero all render the
same way, namely no indicator. -/
theorem C4_amended_theorem :
    ∀ s : Stock,
      (showsDcfIndicator s = true ↔
        ∃ d v, s.dcf = some d ∧ d.intrinsic_value = some v ∧ 0 < v) ∧
      (showsDcfIndicator s = false → dcfIndicatorRender s = none) := by
  intro s
  constructor
  · constructor
    · intro h
      rcases hd : s.dcf with _ | d
      · simp [showsDcfIndicator, hd] at h
      · rcases hv : d.intrinsic_value with _ | v
        · simp [showsDcfIndicator, hd, hv] at h
        · simp [showsDcfIndicator, hd, hv] at h
          exact ⟨d, v, rfl, hv, h⟩
    · rintro ⟨d, v, hd, hv, hpos⟩
      simp [showsDcfIndicator, hd, hv, hpos]
  · intro h
    rcases hd : s.dcf with _ | d
    · simp [dcfIndicatorRender, hd]
    · simp [dcfIndicatorRender, hd, h]

/-- Witness for C4: the amended theorem applied to the concrete stock with
no dcf shows no indicator is rendered. -/
theorem C4_witness : dcfIndicatorRender stockNoDcf = none :=
  (C4_amended_theorem stockNoDcf).2 (by decide)

/-! ## DataTable (DataTable.jsx): search, filter, sort, paginate -/

/-- A table cell as a column accessor yields it: a number, a string, or a
missing value (undefined in JS). -/
inductive CellValue where
  | num (q : ℚ)
  | str (s : String)
  | missing
deriving DecidableEq, Repr

/-- Prefix test on character lists, for the substring check below. -/
def startsWithChars : List Char → List Char → Bool
  | [], _ => true
  | _ :: _, [] => false
  | a :: as, b :: bs => a = b && startsWithChars as bs

/-- Substring test on character lists (JS String.includes). -/
def containsChars (needle : List Char) : List Char → Bool
  | [] => needle.isEmpty
  | c :: t => startsWithChars needle (c :: t) || containsChars needle t

/-- JS String.includes on strings. -/
def strIncludes (hay needle : String) : Bool :=
  containsChars needle.toList hay.toList

/-- JS value?.toString() on a cell: numbers and strings stringify (the Lean
rational printer stands in for JS number printing), undefined yields none. -/
def CellValue.toStr : CellValue → Option String
  | .num q => some (toString q)
  | .str s => some s
  | .missing => none

/-- A DataTable column: key, accessor and filterable flag (label, render and
width do not affect which rows are displayed). -/
structure Column (Row : Type) where
  key : String
  accessor : Row → CellValue
  filterable : Bool := false

/-- columns.find used by the filter and sort steps. -/
def findColumn {Row : Type} (cols : List (Column Row)) (key : String) :
    Option (Column Row) :=
  cols.find? (fun c => c.key == key)

/-- The search step (DataTable.jsx lines 38-45): skipped for an empty term,
otherwise keeps the rows where some column stringifies and, lowercased,
includes the lowercased term. -/
def applySearch {Row : Type} (cols : List (Column Row)) (term : String)
    (rows : List Row) : List Row :=
  if term = "" then rows
  else
    rows.filter fun row =>
      cols.any fun c =>
        match (c.accessor row).toStr with
        | some s => strIncludes s.toLower term.toLower
        | none => false

/-- One per-column filter entry (DataTable.jsx lines 49-58): a falsy (empty)
value is skipped, an unknown key is skipped, otherwise the rows whose cell
stringifies exactly to the value are kept. -/
def applyFilterOne {Row : Type} (cols : List (Column Row))
    (kv : String × String) (rows : List Row) : List Row :=
  if kv.2 = "" then rows
  else
    match findColumn cols kv.1 with
    | some col =>
      rows.filter fun row =>
        match (col.accessor row).toStr with
        | some s => s == kv.2
        | none => false
    | none => rows

/-- All filter entries in order (Object.entries(filters).forEach). -/
def applyFilters {Row : Type} (cols : List (Column Row)) :
    List (String × String) → List Row → List Row
  | [], rows => rows
  | kv :: rest, rows => applyFilters cols rest (applyFilterOne cols kv rows)

/-- Order on character lists, standing in for localeCompare. -/
def charListLe : List Char → List Char → Bool
  | [], _ => true
  | _ :: _, [] => false
  | a :: as, b :: bs => if a = b then charListLe as bs else decide (a < b)

/-- String(aVal || '') in the string branch of the sort comparator: a falsy
cell (missing, the number zero, the empty string) becomes the empty string. -/
def cellSortKey : CellValue → String
  | .num q => if q = 0 then "" else toString q
  | .str s => s
  | .missing => ""

/-- The sort comparator (DataTable.jsx lines 65-80) as a le predicate:
numbers compare numerically, anything else compares as strings; direction
desc reverses the comparison. -/
def cellLe (asc : Bool) (a b : CellValue) : Bool :=
  match a, b with
  | .num x, .num y => if asc then decide (x ≤ y) else decide (y ≤ x)
  | _, _ =>
    if asc then charListLe (cellSortKey a).toList (cellSortKey b).toList
    else charListLe (cellSortKey b).toList (cellSortKey a).toList

/-- The sort step (DataTable.jsx lines 62-82): no sort key, or a key naming
no column, leaves the order; otherwise the rows are sorted by the
comparator on the column's cells. -/
def applySort {Row : Type} (cols : List (Column Row))
    (sortCfg : Option (String × Bool)) (rows : List Row) : List Row :=
  match sortCfg with
  | none => rows
  | some (key, asc) =>
    match findColumn cols key with
    | none => rows
    | some col => rows.mergeSort fun a b => cellLe asc (col.accessor a) (col.accessor b)

/-- processedData (DataTable.jsx lines 34-85): search, then filters, then
sort. -/
def processedData {Row : Type} (cols : List (Column Row)) (term : String)
    (filters : List (String × String)) (sortCfg : Option (String × Bool))
    (rows : List Row) : List Row :=
  applySort cols sortCfg (applyFilters cols filters (applySearch cols term rows))

/-- totalPages (DataTable.jsx line 88): Math.ceil of the exact quotient. -/
def totalPages {Row : Type} (cols : List (Column Row)) (term : String)
    (filters : List (String × String)) (sortCfg : Option (String × Bool))
    (rows : List Row) (pageSize : ℕ) : ℕ :=
  ⌈((processedData cols term filters sortCfg rows).length : ℚ) / (pageSize : ℚ)⌉₊

/-- paginatedData (DataTable.jsx lines 89-92):
slice((currentPage-1)*pageSize, currentPage*pageSize). -/
def paginatedData {Row : Type} (cols : List (Column Row)) (term : String)
    (filters : List (String × String)) (sortCfg : Option (String × Bool))
    (rows : List Row) (pageSize currentPage : ℕ) : List Row :=
  ((processedData cols term filters sortCfg rows).drop ((currentPage - 1) * pageSize)).take
    (currentPage * pageSize - (currentPage - 1) * pageSize)

/-! Supporting lemmas for C8 -/

theorem applySearch_sublist {Row : Type} (cols : List (Column Row))
    (term : String) (rows : List Row) :
    (applySearch cols term rows).Sublist rows := by
  unfold applySearch
  split
  · exact List.Sublist.refl _
  · exact List.filter_sublist _

theorem applyFilterOne_sublist {Row : Type} (cols : List (Column Row))
    (kv : String × String) (rows : List Row) :
    (applyFilterOne cols kv rows).Sublist rows := by
  unfold applyFilterOne
  split
  · exact List.Sublist.refl _
  · split
    · exact List.filter_sublist _
    · exact List.Sublist.refl _

theorem applyFilters_sublist {Row : Type} (cols : List (Column Row)) :
    ∀ (fs : List (String × String)) (rows : List Row),
      (applyFilters cols fs rows).Sublist rows := by
  intro fs
  induction fs with
  | nil => intro rows; exact List.Sublist.refl _
  | cons kv rest ih =>
    intro rows
    exact (ih (applyFilterOne cols kv rows)).trans (applyFilterOne_sublist cols kv rows)

theorem applySort_perm {Row : Type} (cols : List (Column Row))
    (sortCfg : Option (String × Bool)) (rows : List Row) :
    (applySort cols sortCfg rows).Perm rows := by
  unfold applySort
  split
  · exact List.Perm.refl _
  · split
    · exact List.Perm.refl _
    · exact List.mergeSort_perm _ _

theorem processedData_count_le {Row : Type} [DecidableEq Row]
    (cols : List (Column Row)) (term : String)
    (filters : List (String × String)) (sortCfg : Option (String × Bool))
    (rows : List Row) (r : Row) :
    (processedData cols term filters sortCfg rows).count r ≤ rows.count r := by
  unfold processedData
  rw [(applySort_perm cols sortCfg _).count_eq]
  exact le_trans
    ((applyFilters_sublist cols filters _).count_le r)
    ((applySearch_sublist cols term rows).count_le r)

theorem natCeilRatDiv (n m : ℕ) (hm : 0 < m) :
    ⌈(n : ℚ) / (m : ℚ)⌉₊ = (n + m - 1) / m := by
  rcases Nat.eq_zero_or_pos n with hn | hn
  · subst hn
    rw [Nat.cast_zero, zero_div, Nat.ceil_zero, Nat.zero_add]
    exact (Nat.div_eq_of_lt (by omega)).symm
  · have hmQ : (0 : ℚ) < (m : ℚ) := by exact_mod_cast hm
    set k := (n + m - 1) / m with hkdef
    have hdm := Nat.div_add_mod (n + m - 1) m
    have hr : (n + m - 1) % m < m := Nat.mod_lt _ hm
    have hmk : m * k = k * m := Nat.mul_comm m k
    rw [hmk] at hdm
    have hA : n ≤ k * m := by omega
    have hB : (k - 1) * m < n := by
      rw [Nat.sub_mul, Nat.one_mul]
      omega
    have hk0 : k ≠ 0 := by
      rw [hkdef]
      have := (Nat.one_le_div_iff hm).2 (by omega : m ≤ n + m - 1)
      omega
    rw [Nat.ceil_eq_iff hk0]
    constructor
    · rw [lt_div_iff₀ hmQ]
      exact_mod_cast hB
    · rw [div_le_iff₀ hmQ]
      exact_mod_cast hA

/-- C8: for every dataset, column set and interactive state, the displayed
rows are rows of the input — never fabricated, never duplicated beyond their
input multiplicity — a page shows at most pageSize rows, and totalPages is
the ceiling of the processed row count over pageSize. -/
theorem C8_theorem {Row : Type} [DecidableEq Row]
    (cols : List (Column Row)) (term : String)
    (filters : List (String × String)) (sortCfg : Option (String × Bool))
    (rows : List Row) (pageSize currentPage : ℕ) (hps : 0 < pageSize) :
    (∀ r : Row,
      (paginatedData cols term filters sortCfg rows pageSize currentPage).count r ≤
        rows.count r) ∧
    (∀ r ∈ paginatedData cols term filters sortCfg rows pageSize currentPage,
      r ∈ rows) ∧
    (paginatedData cols term filters sortCfg rows pageSize currentPage).length ≤
      pageSize ∧
    totalPages cols term filters sortCfg rows pageSize =
      ((processedData cols term filters sortCfg rows).length + pageSize - 1) /
        pageSize := by
  have hsub : (paginatedData cols term filters sortCfg rows pageSize currentPage).Sublist
      (processedData cols term filters sortCfg rows) := by
    unfold paginatedData
    exact (List.take_sublist _ _).trans (List.drop_sublist _ _)
  refine ⟨?_, ?_, ?_, ?_⟩
  · intro r
    exact le_trans (hsub.count_le r)
      (processedData_count_le cols term filters sortCfg rows r)
  · intro r hr
    have h1 : r ∈ processedData cols term filters sortCfg rows := hsub.subset hr
    unfold processedData at h1
    rw [(applySort_perm cols sortCfg _).mem_iff] at h1
    exact (applySearch_sublist cols term rows).subset
      ((applyFilters_sublist cols filters _).subset h1)
  · unfold paginatedData
    refine le_trans (List.length_take_le _ _) ?_
    rcases Nat.eq_zero_or_pos currentPage with h | h
    · subst h; simp
    · rcases Nat.exists_eq_add_of_le h with ⟨c, hc⟩
      subst hc
      have h1 : 1 + c - 1 = c := by omega
      rw [h1, Nat.add_mul, Nat.one_mul, Nat.add_sub_cancel]
  · unfold totalPages
    exact natCeilRatDiv _ _ hps

/-- A concrete numeric column over natural-number rows, for the C8 witness. -/
def natColumn : Column ℕ := { key := "val", accessor := fun n => .num (n : ℚ) }

/-- Witness for C8: a concrete three-row table at page size 2 shows at most
two rows on page 1. -/
theorem C8_witness :
    (paginatedData [natColumn] "" [] none [10, 20, 30] 2 1).length ≤ 2 :=
  (C8_theorem [natColumn] "" [] none [10, 20, 30] 2 1 (by decide)).2.2.1

/-! ## StockScreener (StockScreener.jsx) -/

/-- The scores object of a screener stock: composite is accessed without
optional chaining, the valuation sub-score defensively. -/
structure ScreenerScores where
  composite : ℚ
  valuation : Option ℚ := none
deriving DecidableEq, Repr

/-- The fundamentals object of a screener stock. -/
structure Fundamentals where
  pe_ratio : Option ℚ := none
deriving DecidableEq, Repr

/-- The valuation object of a screener stock. -/
structure ValuationInfo where
  status : Option String := none
deriving DecidableEq, Repr

/-- A stock as StockScreener consumes it. -/
structure ScreenerStock where
  symbol : String
  name : String := ""
  price : ℚ := 0
  change_percent : ℚ := 0
  sector : String
  market_cap_category : Option String := none
  valuation : Option ValuationInfo := none
  scores : ScreenerScores
  fundamentals : Option Fundamentals := none
  macd_signal : Option String := none
  rsi : Option ℚ := none
deriving DecidableEq, Repr

/-- The screener filter state (StockScreener.jsx lines 5-13, with its
initial values as defaults). -/
structure ScreenerFilters where
  sector : String := "all"
  marketCap : String := "all"
  valuation : String := "all"
  minScore : ℚ := 0
  maxPE : ℚ := 100
  macdSignal : String := "all"
  sortBy : String := "score"
deriving Repr

/-- The pe_ratio as JS truthiness sees it in
stock.fundamentals?.pe_ratio && ...: some p exactly when fundamentals and
pe_ratio are present and the value is not zero. -/
def truthyPe (s : ScreenerStock) : Option ℚ :=
  match s.fundamentals with
  | some f =>
    match f.pe_ratio with
    | some p => if p = 0 then none else some p
    | none => none
  | none => none

/-- Sector clause (line 27). -/
def sectorPass (f : ScreenerFilters) (s : ScreenerStock) : Bool :=
  f.sector = "all" || s.sector = f.sector

/-- Market-cap clause (line 30); an absent category fails a set filter. -/
def marketCapPass (f : ScreenerFilters) (s : ScreenerStock) : Bool :=
  f.marketCap = "all" ||
    (match s.market_cap_category with
     | some c => c = f.marketCap
     | none => false)

/-- stock.valuation?.status?.toLowerCase() || '' (line 34). -/
def valuationStatusLower (s : ScreenerStock) : String :=
  match s.valuation with
  | some v =>
    match v.status with
    | some st => st.toLower
    | none => ""
  | none => ""

/-- Valuation clause (lines 33-38). -/
def valuationPass (f : ScreenerFilters) (s : ScreenerStock) : Bool :=
  f.valuation = "all" ||
    (if f.valuation = "undervalued" then strIncludes (valuationStatusLower s) "undervalued"
     else if f.valuation = "overvalued" then strIncludes (valuationStatusLower s) "overvalued"
     else if f.valuation = "fair" then strIncludes (valuationStatusLower s) "fair"
     else true)

/-- Score clause (line 41): keep unless composite < minScore. -/
def scorePass (f : ScreenerFilters) (s : ScreenerStock) : Bool :=
  !(s.scores.composite < f.minScore)

/-- PE clause (line 44): exclude exactly when pe_ratio is truthy and
strictly above maxPE. -/
def pePass (f : ScreenerFilters) (s : ScreenerStock) : Bool :=
  match truthyPe s with
  | some p => decide (p ≤ f.maxPE)
  | none => true

/-- MACD clause (line 47); an absent signal fails a set filter. -/
def macdPass (f : ScreenerFilters) (s : ScreenerStock) : Bool :=
  f.macdSignal = "all" ||
    (match s.macd_signal with
     | some m => m = f.macdSignal
     | none => false)

/-- The whole filter predicate (lines 25-50): the conjunction of the six
early-return clauses. -/
def screenerKeep (f : ScreenerFilters) (s : ScreenerStock) : Bool :=
  sectorPass f s && marketCapPass f s && valuationPass f s &&
    scorePass f s && pePass f s && macdPass f s

/-- a.fundamentals?.pe_ratio || 999 in the pe sort branch (line 56): a
missing or zero pe becomes 999. -/
def peOr999 (s : ScreenerStock) : ℚ :=
  match truthyPe s with
  | some p => p
  | none => 999

/-- b.scores.valuation || 0 in the valuation sort branch (line 60). -/
def valuationScoreOr0 (s : ScreenerStock) : ℚ :=
  (s.scores.valuation).getD 0

/-- The sort comparator (lines 51-64) as a le predicate. -/
def screenerLe (sortKey : String) (a b : ScreenerStock) : Bool :=
  if sortKey = "score" then decide (b.scores.composite ≤ a.scores.composite)
  else if sortKey = "pe" then decide (peOr999 a ≤ peOr999 b)
  else if sortKey = "change" then decide (b.change_percent ≤ a.change_percent)
  else if sortKey = "valuation" then decide (valuationScoreOr0 b ≤ valuationScoreOr0 a)
  else true

/-- filteredStocks (lines 21-65): filter then sort. -/
def filteredStocks (f : ScreenerFilters) (stocks : List ScreenerStock) :
    List ScreenerStock :=
  (stocks.filter (screenerKeep f)).mergeSort (screenerLe f.sortBy)

/-- C9: the Max-PE filter lets through every stock whose pe_ratio is missing
or zero, excludes exactly the stocks with a truthy pe_ratio strictly above
maxPE, and every stock in the screener output with a truthy pe_ratio
satisfies pe_ratio <= maxPE as well as composite >= minScore. -/
theorem C9_theorem (f : ScreenerFilters) (stocks : List ScreenerStock) :
    (∀ s : ScreenerStock, truthyPe s = none → pePass f s = true) ∧
    (∀ s : ScreenerStock,
      pePass f s = false ↔ ∃ p, truthyPe s = some p ∧ f.maxPE < p) ∧
    (∀ s ∈ filteredStocks f stocks,
      (∀ p, truthyPe s = some p → p ≤ f.maxPE) ∧
      f.minScore ≤ s.scores.composite) := by
  refine ⟨?_, ?_, ?_⟩
  · intro s h
    simp [pePass, h]
  · intro s
    rcases hp : truthyPe s with _ | p
    · simp [pePass, hp]
    · simp [pePass, hp]
  · intro s hs
    have hmem : s ∈ stocks.filter (screenerKeep f) := by
      have hperm := List.mergeSort_perm (stocks.filter (screenerKeep f)) (screenerLe f.sortBy)
      exact hperm.subset hs
    have hkeep : screenerKeep f s = true := (List.mem_filter.mp hmem).2
    simp only [screenerKeep, Bool.and_eq_true] at hkeep
    obtain ⟨⟨⟨⟨⟨_, _⟩, _⟩, hscore⟩, hpe⟩, _⟩ := hkeep
    constructor
    · intro p hp
      simp [pePass, hp] at hpe
      exact hpe
    · simp only [scorePass, Bool.not_eq_true', decide_eq_false_iff_not, not_lt] at hscore
      exact hscore

/-- A concrete screener stock with no fundamentals at all, for the C9
witness. -/
def stockNoPe : ScreenerStock :=
  { symbol := "NOPE", sector := "IT", scores := { composite := 50 } }

/-- Witness for C9: a stock without a pe_ratio passes the PE clause under
the initial filters. -/
theorem C9_witness : pePass {} stockNoPe = true :=
  (C9_theorem {} []).1 stockNoPe rfl

/-! ## Composite-score classification across views -/

/-- A score classification shared by the three views: the css class
low/medium/high, identified with the colors red/orange/green. -/
inductive ScoreClass where
  | low
  | medium
  | high
deriving DecidableEq, Repr

/-- StockScreener.jsx lines 253-254: green at composite >= 60, orange at
>= 40, red below. -/
def screenerScoreClass (score : ℚ) : ScoreClass :=
  if 60 ≤ score then .high else if 40 ≤ score then .medium else .low

/-- Recommendations.jsx line 53: score-badge high at >= 60, medium at >= 40,
low below. -/
def recScoreClass (score : ℚ) : ScoreClass :=
  if 60 ≤ score then .high else if 40 ≤ score then .medium else .low

/-- TopPerformers.jsx getScoreClass (lines 142-146): high at >= 70, medium
at >= 50, low below. -/
def getScoreClass (score : ℚ) : ScoreClass :=
  if 70 ≤ score then .high else if 50 ≤ score then .medium else .low

/-- TopPerformers.jsx getScoreColor (lines 136-140). -/
def getScoreColor (score : ℚ) : String :=
  if 70 ≤ score then "#10b981" else if 50 ≤ score then "#f59e0b" else "#ef4444"

/-- The color denoted by each classification: green for high, orange for
medium, red for low. -/
def scoreClassColor : ScoreClass → String
  | .high => "#10b981"
  | .medium => "#f59e0b"
  | .low => "#ef4444"

/-- C10 counterexample: a composite score of 65 is classified high (green)
by StockScreener but only medium (orange) by TopPerformers, so the views do
not classify identically. -/
theorem C10_counterexample :
    screenerScoreClass 65 = ScoreClass.high ∧
    getScoreClass 65 = ScoreClass.medium ∧
    getScoreColor 65 = "#f59e0b" := by decide

/-- C10 (amended): StockScreener and Recommendations classify every score
identically (both use thresholds 60/40), and TopPerformers (thresholds
70/50) agrees with them exactly outside the bands [40,50) and [60,70);
TopPerformers' color function equals the class-to-color rendering of its
class function at every score, so color and class agree on all three
fibers. -/
theorem C10_amended_theorem :
    ∀ score : ℚ,
      screenerScoreClass score = recScoreClass score ∧
      (getScoreClass score = screenerScoreClass score ↔
        ¬ ((40 ≤ score ∧ score < 50) ∨ (60 ≤ score ∧ score < 70))) ∧
      getScoreColor score = scoreClassColor (getScoreClass score) := by
  intro score
  refine ⟨rfl, ?_, ?_⟩
  · unfold getScoreClass screenerScoreClass
    split_ifs with h1 h2 h3 h4 <;> simp_all <;>
      first
        | linarith
        | (intro h; linarith)
  · unfold getScoreColor getScoreClass scoreClassColor
    split_ifs <;> rfl

end Stonks
